import Mathlib

/-!
Shallow embedding of the core of `UI.py` (PDF → chunk → embed → vector store →
retrieval-augmented handbook synthesis, plus the conversation router) and
verification of its specified properties.

External collaborators (the embedding provider, the completion provider, the
vector store, PDF text extraction) are opaque in the source and are modelled
here as oracle inputs: `search_supabase` results and completion-provider token
streams are parameters of the embedded functions, and calls to them are counted
so that claims about "no provider calls" can be stated.

Python strings are modelled as Lean `String` (sequences of characters; Python
slicing is by code point, as is `String.drop`/`List.take` here). Python `int`
is modelled as `Int` where negative values can arise (chunk offsets), `Nat`
where the source only ever produces non-negative values (counters).
-/

/-- ASCII whitespace as used by Python's `str.strip()` / `str.split()`
(space, tab, newline, carriage return, vertical tab, form feed). -/
def pyIsSpace (c : Char) : Bool :=
  c = ' ' || c = '\t' || c = '\n' || c = '\r' || c = '\x0b' || c = '\x0c'

/-- Python `s.strip()`: remove leading and trailing whitespace. -/
def pyStrip (s : String) : String :=
  (((s.toList.dropWhile pyIsSpace).reverse.dropWhile pyIsSpace).reverse).asString

/-- Python `s.lower()` (ASCII case folding, which is all the source uses). -/
def pyLower (s : String) : String :=
  (s.toList.map Char.toLower).asString

/-- Python `s.startswith(p)`. -/
def pyStartsWith (s p : String) : Bool :=
  p.toList.isPrefixOf s.toList

/-- Number of words of Python `s.split()` (split on whitespace runs,
discarding empty fields): the number of maximal non-whitespace runs. -/
def pyWordCount (s : String) : Nat :=
  ((s.toList.splitOnP pyIsSpace).filter (fun w => ¬ w.isEmpty)).length

/-- Clamp one bound of a Python slice `s[a:b]` to `[0, len]`:
negative indices count from the end, then the result is clamped. -/
def pySliceIndex (len : Nat) (a : Int) : Nat :=
  (min (max (if a < 0 then a + len else a) 0) (len : Int)).toNat

/-- Python string slicing `s[a:b]` (step 1), with Python's clamping of
out-of-range and negative bounds. -/
def pySlice (s : String) (a b : Int) : String :=
  let lo := pySliceIndex s.length a
  let hi := pySliceIndex s.length b
  ((s.toList.drop lo).take (hi - lo)).asString

/-- A chunk as built by `chunk_text`: `{"id": f"chunk_{i}", "content": text[start:end]}`. -/
structure Chunk where
  id : String
  content : String
deriving Repr, DecidableEq

/-- The loop of `chunk_text` (`while start < len(text): ...`), with explicit
fuel: `none` means the fuel ran out with the loop condition still true, i.e.
the Python loop has not terminated within `fuel` iterations. The loop state is
`start` (a Python `int`, which can go negative when `overlap > size`), the
chunk counter `i`, and the accumulated chunk list (kept reversed). -/
def chunkTextGo (text : String) (size overlap : Int) :
    Nat → Int → Nat → List Chunk → Option (List Chunk)
  | 0, start, _, acc =>
      if start < (text.length : Int) then none else some acc.reverse
  | fuel + 1, start, i, acc =>
      if start < (text.length : Int) then
        chunkTextGo text size overlap fuel (start + size - overlap) (i + 1)
          ({ id := "chunk_" ++ toString i, content := pySlice text start (start + size) } :: acc)
      else some acc.reverse

/-- `chunk_text(text, size, overlap)` from `UI.py`:

    chunks = []; start = 0; i = 0
    while start < len(text):
        end = start + size
        chunks.append({"id": f"chunk_{i}", "content": text[start:end]})
        start = end - overlap
        i += 1
    return chunks

The source performs no input validation. When `0 ≤ overlap < size` the loop
advances `start` by at least 1 per iteration, so `text.length + 1` iterations
always suffice and the result is `some`; `none` models non-termination. -/
def chunk_text (text : String) (size overlap : Int) : Option (List Chunk) :=
  chunkTextGo text size overlap (text.length + 1) 0 0 []

/-- The chunk the loop builds on its `i`-th iteration for (valid, Nat-valued)
parameters: id `"chunk_<i>"`, content `text[i*(size-overlap) : i*(size-overlap)+size]`. -/
def chunkAt (text : String) (size overlap i : Nat) : Chunk :=
  { id := "chunk_" ++ toString i,
    content := pySlice text ((i * (size - overlap) : Nat) : Int)
      (((i * (size - overlap) : Nat) : Int) + (size : Int)) }

/-- Number of loop iterations of `chunk_text` on a text of length `L` with
step `s = size - overlap`: `⌈L / s⌉`, written in `Nat` arithmetic. -/
def chunkCount (L s : Nat) : Nat := (L + s - 1) / s

/-- Modelled from the spec (§8): the spec's claimed chunk-count formula
`ceil(max(0, L - overlap) / (size - overlap))`, written in `Nat` arithmetic,
for comparison with the count the code actually produces. -/
def specChunkCount (L size overlap : Nat) : Nat :=
  (max 0 (L - overlap) + (size - overlap) - 1) / (size - overlap)

/-- Joined document parts, Python `"\n\n".join(parts)`. -/
def joinParts (parts : List String) : String := String.intercalate "\n\n" parts

/-- The guidance message `generate_handbook_stream` yields for a blank topic. -/
def blankTopicGuidance : String :=
  "Please provide a meaningful topic after 'create a handbook'"

/-- The completion marker suffixed to the combined output. -/
def completionMarker : String := "**Handbook generation finished.**"

/-- Mutable state of the synthesis loop in `generate_handbook_stream`:
`section` (starts at 1), `document_parts`, `total_words`. -/
structure SynthState where
  sectionIdx : Nat
  documentParts : List String
  totalWords : Nat
deriving Repr, DecidableEq

/-- The body of `for chunk in stream:` in `generate_handbook_stream`, with the
source's actual indentation: per streamed chunk the code

    if content := chunk.choices[0].delta.content:
        section_text += content
        yield "\n\n".join(document_parts + [section_text])
    if section_text.strip():
        document_parts.append(section_text.strip())
        total_words += len(section_text.split())
    section += 1
    if section > 25: break

A streamed chunk's delta content is an `Option String` (`none` for a missing
delta); the walrus-`if` is Python truthiness (non-`None` and non-empty).
Returns the state after the `for` loop and the events yielded inside it. -/
def processStream : SynthState → String → List (Option String) → SynthState × List String
  | st, _, [] => (st, [])
  | st, buf, tok :: rest =>
      let step :=
        match tok with
        | some c => if c ≠ "" then (buf ++ c, [joinParts (st.documentParts ++ [buf ++ c])]) else (buf, [])
        | none => (buf, [])
      let buf' := step.1
      let evs1 := step.2
      let st' :=
        if pyStrip buf' ≠ "" then
          { st with documentParts := st.documentParts ++ [pyStrip buf'],
                    totalWords := st.totalWords + pyWordCount buf' }
        else st
      let st'' : SynthState := { st' with sectionIdx := st'.sectionIdx + 1 }
      if st''.sectionIdx > 25 then (st'', evs1)
      else
        let r := processStream st'' buf' rest
        (r.1, evs1 ++ r.2)

/-- The `while total_words < target_words:` loop of `generate_handbook_stream`.
Each iteration performs one `search_supabase(topic)` call (counted), requests
one completion stream from the provider (the oracle supplies the list of
streams, one per iteration), runs the `for` loop over it with
`section_text = ""`, and — with the source's actual indentation — yields
`"\n\n".join(document_parts) + "\n\n**Handbook generation finished.**"` at the
end of each `while` iteration. When the oracle's streams are exhausted while
the loop condition still holds, the run is truncated there: the returned state
then satisfies `totalWords < target`, witnessing that the loop has not
terminated. Returns (final state, yielded events, number of iterations =
search calls = completion-provider calls). -/
def synthLoop (target : Nat) : SynthState → List (List (Option String)) →
    SynthState × List String × Nat
  | st, streams =>
      if st.totalWords < target then
        match streams with
        | [] => (st, [], 0)
        | s :: rest =>
            let r := processStream st "" s
            let evs := r.2 ++ [joinParts r.1.documentParts ++ "\n\n" ++ completionMarker]
            let k := synthLoop target r.1 rest
            (k.1, evs ++ k.2.1, k.2.2 + 1)
      else (st, [], 0)

/-- The observable outcome of one `generate_handbook_stream` run: the yielded
events in order, the number of retrieval (and completion) calls made, and the
final loop state. -/
structure SynthRun where
  events : List String
  searchCalls : Nat
  finalState : SynthState
deriving Repr, DecidableEq

/-- `generate_handbook_stream(topic, target_words=3000)` from `UI.py`:

    if not topic.strip():
        yield "Please provide a meaningful topic after 'create a handbook'"
        return
    section = 1; document_parts = []; total_words = 0
    while total_words < target_words:
        context = "\n\n".join(search_supabase(topic))
        ... stream = <completion provider> ...
        section_text = ""
        for chunk in stream: <processStream>
        yield "\n\n".join(document_parts) + "\n\n**Handbook generation finished.**"

`streams` is the oracle for the opaque completion provider: the token streams
it would return on successive calls. -/
def generate_handbook_stream (topic : String) (targetWords : Nat)
    (streams : List (List (Option String))) : SynthRun :=
  if pyStrip topic = "" then
    { events := [blankTopicGuidance], searchCalls := 0,
      finalState := { sectionIdx := 1, documentParts := [], totalWords := 0 } }
  else
    let r := synthLoop targetWords { sectionIdx := 1, documentParts := [], totalWords := 0 } streams
    { events := r.2.1, searchCalls := r.2.2, finalState := r.1 }

/-- One conversation turn `{"role": ..., "content": ...}`. -/
structure Turn where
  role : String
  content : String
deriving Repr, DecidableEq

/-- Oracle for the opaque collaborators of `chat`: the retrieval results that
`search_supabase(message, k=5)` would return in Q&A mode, and the completion
streams for handbook synthesis. -/
structure ChatOracle where
  searchResults : List String
  streams : List (List (Option String))

/-- The observable outcome of one `chat(message, history)` generator run: the
history states it yields, in order, whether `generate_handbook_stream` was
invoked, and with which topic. -/
structure ChatRun where
  yields : List (List Turn)
  synthesisInvoked : Bool
  synthesisTopic : Option String
deriving Repr, DecidableEq

/-- The prompt-for-topic assistant message in `chat`. -/
def promptForTopicMsg : String := "Please provide a topic for the handbook."

/-- The fixed "not found" reply in `chat`'s Q&A branch. -/
def notFoundMsg : String := "I couldn't find relevant information in the document."

/-- `chat(message, history)` from `UI.py`, a Python generator:

    if not message.strip(): return history
    current_history = history + [{"role": "user", "content": message}]
    if message.lower().startswith("create a handbook"):
        topic = message[15:].strip()
        if not topic:
            current_history.append({"role":"assistant", "content": "Please provide a topic for the handbook."})
            return current_history
        thinking_msg = {"role": "assistant", "content": f"📖 Generating handbook on **{topic}** ...\n\n"}
        current_history.append(thinking_msg); yield current_history
        for partial in generate_handbook_stream(topic):
            current_history[-1]["content"] = f"📖 Handbook: **{topic}**\n\n{partial}"
            yield current_history
        return
    results = search_supabase(message, k=5)
    if not results:
       reply = "I couldn't find relevant information in the document."
    else:
       reply = "\n\n".join(results)
       current_history.append({"role": "assistant", "content": reply})
       yield current_history

Because `chat` contains `yield`, the whole function is a generator: a bare
`return x` ends the generator without yielding anything, so the
`return history` / `return current_history` branches contribute no yielded
history state. Yields are modelled as snapshots of `current_history`. -/
def chat (message : String) (history : List Turn) (oracle : ChatOracle) : ChatRun :=
  if pyStrip message = "" then { yields := [], synthesisInvoked := false, synthesisTopic := none }
  else
    let current := history ++ [{ role := "user", content := message }]
    if pyStartsWith (pyLower message) "create a handbook" then
      let topic := pyStrip (message.drop 15)
      if topic = "" then
        { yields := [], synthesisInvoked := false, synthesisTopic := none }
      else
        let current1 := current ++
          [{ role := "assistant", content := "📖 Generating handbook on **" ++ topic ++ "** ...\n\n" }]
        let run := generate_handbook_stream topic 3000 oracle.streams
        let updates := run.events.map (fun p =>
          current ++ [{ role := "assistant", content := "📖 Handbook: **" ++ topic ++ "**\n\n" ++ p }])
        { yields := current1 :: updates, synthesisInvoked := true, synthesisTopic := some topic }
    else
      if oracle.searchResults = [] then
        { yields := [], synthesisInvoked := false, synthesisTopic := none }
      else
        { yields := [current ++
            [{ role := "assistant", content := String.intercalate "\n\n" oracle.searchResults }]],
          synthesisInvoked := false, synthesisTopic := none }

/-- The process-wide mutable state of `UI.py`: `PDF_TEXT` and `CHUNKS`. -/
structure GlobalState where
  pdfText : String
  chunks : List Chunk
deriving Repr, DecidableEq

/-- The observable outcome of one `upload_pdf` call: the returned
`(status, preview)` pair, the global state afterwards, and how many
`chunk_text` / `embed` / `upsert` calls were made (`store_chunks` performs one
`embed` and one `upsert` per chunk). -/
structure UploadResult where
  status : String
  preview : String
  newState : GlobalState
  chunkCalls : Nat
  embedCalls : Nat
  upsertCalls : Nat
deriving Repr, DecidableEq

/-- `upload_pdf(file)` from `UI.py`:

    global PDF_TEXT, CHUNKS
    if file is None: return "❌ No file", ""
    PDF_TEXT = extract_pdf_text(file)
    if not PDF_TEXT.strip(): return "⚠️ No extractable text", ""
    CHUNKS = chunk_text(PDF_TEXT)
    store_chunks(CHUNKS)
    return (f"✅ PDF processed\nChunks: {len(CHUNKS)}", CHUNKS[0]["content"][:1200])

PDF extraction is opaque (file → raw text), so the file argument is modelled
as `Option String`: `none` for no file, `some t` for a file whose extracted
text is `t`. The outer `none` models `chunk_text` not terminating (which
cannot happen here: default size 1000 / overlap 200 are valid). `CHUNKS[0]`
is reached only with non-blank text, hence a non-empty chunk list, so the
`headD` default is never used on the reached paths. -/
def upload_pdf (file : Option String) (st : GlobalState) : Option UploadResult :=
  match file with
  | none => some { status := "❌ No file", preview := "", newState := st,
                   chunkCalls := 0, embedCalls := 0, upsertCalls := 0 }
  | some t =>
      let st1 : GlobalState := { st with pdfText := t }
      if pyStrip t = "" then
        some { status := "⚠️ No extractable text", preview := "", newState := st1,
               chunkCalls := 0, embedCalls := 0, upsertCalls := 0 }
      else
        match chunk_text t 1000 200 with
        | none => none
        | some cs =>
            let st2 : GlobalState := { st1 with chunks := cs }
            some { status := "✅ PDF processed\nChunks: " ++ toString cs.length,
                   preview := pySlice (cs.headD { id := "", content := "" }).content 0 1200,
                   newState := st2,
                   chunkCalls := 1, embedCalls := cs.length, upsertCalls := cs.length }

/-- The chunks built by iterations `i, i+1, ..., i+m-1` of the `chunk_text`
loop when it starts those iterations at offset `start` and advances by
`size - overlap` each time. -/
def chunkSeq (text : String) (size overlap start i m : Nat) : List Chunk :=
  (List.range m).map (fun j =>
    { id := "chunk_" ++ toString (i + j),
      content := pySlice text ((start + j * (size - overlap) : Nat) : Int)
        (((start + j * (size - overlap) : Nat) : Int) + (size : Int)) })

/-- Whether a yielded event carries the completion marker as a suffix. -/
def endsWithMarker (e : String) : Bool :=
  decide (e.toList.drop (e.length - completionMarker.length) = completionMarker.toList)

lemma chunkCount_zero (s : Nat) (hs : 0 < s) : chunkCount 0 s = 0 := by
  unfold chunkCount
  exact Nat.div_eq_of_lt (by omega)

lemma chunkCount_step (d s : Nat) (hs : 0 < s) (hd : 0 < d) :
    chunkCount d s = chunkCount (d - s) s + 1 := by
  unfold chunkCount
  rcases le_or_lt d s with h | h
  · have h1 : d - s = 0 := Nat.sub_eq_zero_of_le h
    rw [h1]
    have h2 : (0 + s - 1) / s = 0 := Nat.div_eq_of_lt (by omega)
    rw [h2]
    have h3 : 1 * s ≤ d + s - 1 := by omega
    have h4 : d + s - 1 < (1 + 1) * s := by omega
    rw [Nat.div_eq_of_lt_le h3 h4]
  · have h5 : d + s - 1 = (d - s + s - 1) + s := by omega
    rw [h5, Nat.add_div_right _ hs]

lemma chunkSeq_succ (text : String) (size overlap start i m : Nat) :
    chunkSeq text size overlap start i (m + 1) =
      { id := "chunk_" ++ toString i,
        content := pySlice text (start : Int) ((start : Int) + (size : Int)) } ::
        chunkSeq text size overlap (start + (size - overlap)) (i + 1) m := by
  unfold chunkSeq
  rw [List.range_succ_eq_map, List.map_cons, List.map_map]
  congr 1
  · simp
  · apply List.map_congr_left
    intro j hj
    simp only [Function.comp_apply]
    have h1 : i + (j + 1) = i + 1 + j := by ring
    have h2 : start + (j + 1) * (size - overlap) = start + (size - overlap) + j * (size - overlap) := by
      ring
    rw [Nat.succ_eq_add_one, h1, h2]

/-- Invariant of the `chunk_text` loop for valid parameters (`overlap < size`):
with enough fuel (the loop advances `start` by `size - overlap ≥ 1` per
iteration), the loop terminates and produces exactly the chunks of the schema
`chunkSeq`, with `⌈(len - start) / (size - overlap)⌉` further iterations. -/
lemma chunkTextGo_valid (text : String) (size overlap : Nat) (ho : overlap < size) :
    ∀ (fuel start i : Nat) (acc : List Chunk),
      text.length ≤ start + fuel * (size - overlap) →
      chunkTextGo text (size : Int) (overlap : Int) fuel (start : Int) i acc =
        some (acc.reverse ++
          chunkSeq text size overlap start i (chunkCount (text.length - start) (size - overlap))) := by
  intro fuel
  induction fuel with
  | zero =>
      intro start i acc hle
      have hge : text.length ≤ start := by simpa using hle
      have hcond : ¬ ((start : Int) < (text.length : Int)) := by exact_mod_cast not_lt.mpr hge
      have hd : text.length - start = 0 := Nat.sub_eq_zero_of_le hge
      rw [chunkTextGo, if_neg hcond, hd, chunkCount_zero _ (by omega)]
      simp [chunkSeq]
  | succ fuel ih =>
      intro start i acc hle
      rcases lt_or_le start text.length with hstart | hge
      · have hcond : (start : Int) < (text.length : Int) := by exact_mod_cast hstart
        rw [chunkTextGo, if_pos hcond]
        have hcast : (start : Int) + (size : Int) - (overlap : Int) =
            ((start + (size - overlap) : Nat) : Int) := by
          push_cast [Nat.cast_sub ho.le]
          ring
        rw [hcast]
        have hle' : text.length ≤ (start + (size - overlap)) + fuel * (size - overlap) := by
          rw [Nat.succ_mul] at hle
          omega
        rw [ih (start + (size - overlap)) (i + 1) _ hle']
        have hcnt : chunkCount (text.length - start) (size - overlap) =
            chunkCount (text.length - (start + (size - overlap))) (size - overlap) + 1 := by
          have hst := chunkCount_step (text.length - start) (size - overlap) (by omega) (by omega)
          rw [hst]
          congr 2
          omega
        rw [hcnt, chunkSeq_succ]
        simp
      · have hcond : ¬ ((start : Int) < (text.length : Int)) := by exact_mod_cast not_lt.mpr hge
        have hd : text.length - start = 0 := Nat.sub_eq_zero_of_le hge
        rw [chunkTextGo, if_neg hcond, hd, chunkCount_zero _ (by omega)]
        simp [chunkSeq]

lemma chunkSeq_zero_start (text : String) (size overlap m : Nat) :
    chunkSeq text size overlap 0 0 m = (List.range m).map (chunkAt text size overlap) := by
  unfold chunkSeq chunkAt
  apply List.map_congr_left
  intro j hj
  simp

/-- For valid parameters, `chunk_text` terminates and returns exactly the
chunks `chunk_0, chunk_1, ...` with `chunk_j`'s content the slice starting at
`j * (size - overlap)`, one chunk per loop iteration, `⌈L / (size-overlap)⌉`
iterations in all. -/
lemma chunk_text_valid_eq (text : String) (size overlap : Nat) (ho : overlap < size) :
    chunk_text text (size : Int) (overlap : Int) =
      some ((List.range (chunkCount text.length (size - overlap))).map (chunkAt text size overlap)) := by
  unfold chunk_text
  have h0 : ((0 : Nat) : Int) = (0 : Int) := rfl
  rw [← h0]
  rw [chunkTextGo_valid text size overlap ho (text.length + 1) 0 0 []
    (by
      have hs : 0 < size - overlap := by omega
      calc text.length ≤ (text.length + 1) * 1 := by omega
        _ ≤ (text.length + 1) * (size - overlap) := Nat.mul_le_mul_left _ hs
        _ = 0 + (text.length + 1) * (size - overlap) := by omega)]
  rw [Nat.sub_zero, chunkSeq_zero_start]
  simp

/-- C1: the claim states that `generate_handbook_stream` finalizes at most 25
sections and terminates after the 25th. The code violates it: `section` is
incremented and `document_parts` is appended *per streamed token* (the block
is indented inside the `for chunk in stream:` loop), and `break` only exits
the inner `for` loop. Concretely, with a first completion stream of 25
non-empty deltas and a second of one delta, 26 finalized section texts are
appended to the accumulated document and the `while` loop is still running
(total words 26 < target 3000) after both streams. -/
theorem synth_section_bound_violated :
    (generate_handbook_stream "t" 3000
        [List.replicate 25 (some "w"), [some "w"]]).finalState.documentParts.length = 26 ∧
    (generate_handbook_stream "t" 3000
        [List.replicate 25 (some "w"), [some "w"]]).finalState.totalWords < 3000 ∧
    (generate_handbook_stream "t" 3000
        [List.replicate 25 (some "w"), [some "w"]]).finalState.sectionIdx = 27 := by
  decide

/-- C2: the claim states that for `"create a handbook on   "` the router
appends one prompt-for-topic assistant turn and never invokes synthesis, the
topic being the trimmed text after the 17-character trigger
`"create a handbook"`. The code slices `message[15:]` (two characters short),
so the extracted topic is `"ok on"` — non-blank even though the text after the
trigger is blank — and the Synthesis Engine *is* invoked; no prompt-for-topic
turn is ever produced. (The text after the code's own 17-character trigger
trims to `"on"`, and with the spec example's reading of the trigger phrase as
`"create a handbook on"` it trims to blank; the code's `"ok on"` matches
neither, and the claim's promised behavior occurs in neither reading.) -/
theorem chat_trigger_slice_bug :
    ("create a handbook".length = 17 ∧
      pyStrip ((String.drop "create a handbook on   " 17)) = "on" ∧
      pyStrip ((String.drop "create a handbook on   " "create a handbook on".length)) = "") ∧
    (chat "create a handbook on   " [] { searchResults := [], streams := [] }).synthesisInvoked
      = true ∧
    (chat "create a handbook on   " [] { searchResults := [], streams := [] }).synthesisTopic
      = some "ok on" ∧
    (chat "create a handbook on   " [] { searchResults := [], streams := [] }).yields =
      [[{ role := "user", content := "create a handbook on   " },
        { role := "assistant", content := "📖 Generating handbook on **ok on** ...\n\n" }]] := by
  decide

/-- C3: the claim states that Q&A mode with zero retrieval results always
yields a history with the fixed "not found" assistant turn. In the code the
`append`/`yield` sit inside the `else` branch only; in the empty-results
branch `reply` is assigned and then dead, and the generator ends without
yielding anything. For the non-empty, non-trigger message `"hello"` with zero
search results, `chat` yields no history state at all (in particular none
containing `notFoundMsg`). -/
theorem chat_qa_empty_results_no_turn :
    (chat "hello" [] { searchResults := [], streams := [] }).yields = [] ∧
    (chat "hello" [] { searchResults := [], streams := [] }).synthesisInvoked = false := by
  decide

/-- C4: the claim states that `chunk_text` rejects `overlap ≥ size` before
producing any chunk. The code performs no validation at all: on text `"ab"`
with `size = 1`, `overlap = 1` the loop advances `start` by `0`, so it never
terminates — for every fuel bound the loop condition is still true (`none`),
rather than an input-validation error being raised. -/
theorem chunk_text_overlap_ge_size_diverges :
    (∀ (fuel i : Nat) (acc : List Chunk), chunkTextGo "ab" 1 1 fuel 0 i acc = none) ∧
    chunk_text "ab" 1 1 = none := by
  have key : ∀ (fuel i : Nat) (acc : List Chunk), chunkTextGo "ab" 1 1 fuel 0 i acc = none := by
    intro fuel
    induction fuel with
    | zero =>
        intro i acc
        rw [chunkTextGo]
        have hlen : "ab".length = 2 := rfl
        rw [hlen]
        norm_num
    | succ fuel ih =>
        intro i acc
        rw [chunkTextGo]
        have hlen : "ab".length = 2 := rfl
        rw [hlen]
        norm_num
        exact ih _ _
  exact ⟨key, key _ _ _⟩

/-- C5 counterexample: the spec's chunk-count formula
`⌈max(0, L - overlap) / (size - overlap)⌉` is wrong for the code. For
`text = "abcdefghij"` (L = 10), `size = 4`, `overlap = 1` the code produces 4
chunks while the formula gives `⌈9/3⌉ = 3`. -/
theorem chunk_count_formula_counterexample :
    (chunk_text "abcdefghij" 4 1).map List.length = some 4 ∧ specChunkCount 10 4 1 = 3 := by
  decide

/-- C5 (amended): for every text and valid `(size > 0, 0 ≤ overlap < size)`,
`chunk_text` terminates and the number of chunks is `⌈L / (size - overlap)⌉`
(in Nat arithmetic, `(L + (size-overlap) - 1) / (size-overlap)`) — not the
spec's `⌈max(0, L - overlap) / (size - overlap)⌉`; it is at least 1 whenever
`L > 0`, and the empty text yields an empty chunk list. -/
theorem chunk_text_count (text : String) (size overlap : Nat)
    (hs : 0 < size) (ho : overlap < size) :
    ∃ l, chunk_text text (size : Int) (overlap : Int) = some l ∧
      l.length = (text.length + (size - overlap) - 1) / (size - overlap) ∧
      (0 < text.length → 0 < l.length) ∧
      (text.length = 0 → l = []) := by
  refine ⟨_, chunk_text_valid_eq text size overlap ho, ?_, ?_, ?_⟩
  · simp [chunkCount]
  · intro hL
    simp only [List.length_map, List.length_range]
    unfold chunkCount
    show 1 ≤ _
    rw [Nat.one_le_div_iff (by omega)]
    omega
  · intro hL
    rw [hL, chunkCount_zero _ (by omega)]
    simp

/-- Witness for `chunk_text_count` at `text = "abc"`, `size = 2`, `overlap = 1`. -/
theorem chunk_text_count_witness :
    (0 : Nat) < 2 ∧ (1 : Nat) < 2 ∧
    ∃ l, chunk_text "abc" ((2 : Nat) : Int) ((1 : Nat) : Int) = some l ∧
      l.length = ("abc".length + (2 - 1) - 1) / (2 - 1) ∧
      (0 < "abc".length → 0 < l.length) ∧
      ("abc".length = 0 → l = []) :=
  ⟨by decide, by decide, chunk_text_count "abc" 2 1 (by decide) (by decide)⟩

/-- C6: the claim states that exactly one combined-output event with the
completion marker is emitted per synthesis run, after the loop terminates. In
the code the `yield ... + "**Handbook generation finished.**"` is indented
inside the `while` loop, so it runs once per `while` iteration. Concretely,
for topic `"t"`, target 2 words, and two single-delta streams, the loop runs
two iterations and terminates normally (total words 2 ≥ 2), and *two* events
carrying the completion marker are emitted. -/
theorem completion_marker_emitted_per_iteration :
    ((generate_handbook_stream "t" 2 [[some "a"], [some "b"]]).events.filter
        endsWithMarker).length = 2 ∧
    (generate_handbook_stream "t" 2 [[some "a"], [some "b"]]).finalState.totalWords = 2 := by
  decide

/-- C7: the concrete example
`chunk_text("abcdefghij", size=4, overlap=1) = ["abcd","defg","ghij","j"]`
with ids `chunk_0 .. chunk_3`, and the general schema: for valid parameters,
chunk `i` has id `"chunk_<i>"` and content `text[start : start + size]` with
`start = i * (size - overlap)`, for `i = 0, 1, ...` until `start ≥ len(text)`
(`⌈L / (size - overlap)⌉` chunks in all, as `chunkAt`/`chunkCount` spell out). -/
theorem chunk_text_example_and_schema :
    chunk_text "abcdefghij" 4 1 =
      some [{ id := "chunk_0", content := "abcd" }, { id := "chunk_1", content := "defg" },
            { id := "chunk_2", content := "ghij" }, { id := "chunk_3", content := "j" }] ∧
    ∀ (text : String) (size overlap : Nat), overlap < size →
      chunk_text text (size : Int) (overlap : Int) =
        some ((List.range (chunkCount text.length (size - overlap))).map
          (chunkAt text size overlap)) :=
  ⟨by decide, fun text size overlap ho => chunk_text_valid_eq text size overlap ho⟩

/-- Witness for the general schema of `chunk_text_example_and_schema` at
`text = "xy"`, `size = 4`, `overlap = 1`. -/
theorem chunk_text_example_and_schema_witness :
    (1 : Nat) < 4 ∧
    chunk_text "xy" ((4 : Nat) : Int) ((1 : Nat) : Int) =
      some ((List.range (chunkCount "xy".length (4 - 1))).map (chunkAt "xy" 4 1)) :=
  ⟨by decide, chunk_text_example_and_schema.2 "xy" 4 1 (by decide)⟩

/-- C8: for every empty-or-whitespace-only topic (any target, any provider
behavior), `generate_handbook_stream` yields exactly the single guidance
message, makes zero retrieval/completion calls, and never enters the loop
(the loop state is untouched). -/
theorem blank_topic_single_guidance (topic : String) (targetWords : Nat)
    (streams : List (List (Option String))) (h : pyStrip topic = "") :
    generate_handbook_stream topic targetWords streams =
      { events := [blankTopicGuidance], searchCalls := 0,
        finalState := { sectionIdx := 1, documentParts := [], totalWords := 0 } } := by
  unfold generate_handbook_stream
  rw [if_pos h]

/-- Witness for `blank_topic_single_guidance` at topic `" \t "`. -/
theorem blank_topic_single_guidance_witness :
    pyStrip " \t " = "" ∧
    generate_handbook_stream " \t " 3000 [[some "x"]] =
      { events := [blankTopicGuidance], searchCalls := 0,
        finalState := { sectionIdx := 1, documentParts := [], totalWords := 0 } } :=
  ⟨by decide, blank_topic_single_guidance " \t " 3000 [[some "x"]] (by decide)⟩

/-- C9: for every file whose extracted text has no non-whitespace character,
`upload_pdf` returns the `NoExtractableText`-class status with an empty
preview and performs zero `chunk_text` / `embed` / `upsert` calls (the
pipeline stops right after extraction; only the `PDF_TEXT` global has been
overwritten, which precedes the check in the source). -/
theorem upload_no_extractable_text (t : String) (st : GlobalState)
    (h : pyStrip t = "") :
    upload_pdf (some t) st =
      some { status := "⚠️ No extractable text", preview := "",
             newState := { st with pdfText := t },
             chunkCalls := 0, embedCalls := 0, upsertCalls := 0 } := by
  simp [upload_pdf, h]

/-- Witness for `upload_no_extractable_text` at text `"  \n "`. -/
theorem upload_no_extractable_text_witness :
    pyStrip "  \n " = "" ∧
    upload_pdf (some "  \n ") { pdfText := "old", chunks := [{ id := "chunk_0", content := "x" }] } =
      some { status := "⚠️ No extractable text", preview := "",
             newState := { pdfText := "  \n ",
                           chunks := [{ id := "chunk_0", content := "x" }] },
             chunkCalls := 0, embedCalls := 0, upsertCalls := 0 } :=
  ⟨by decide,
    upload_no_extractable_text "  \n "
      { pdfText := "old", chunks := [{ id := "chunk_0", content := "x" }] } (by decide)⟩

/-- C10: calling `upload_pdf` with no file returns the fixed no-file status
with an empty preview, performs no extraction, chunking, embedding, or upsert
call, and leaves the process-wide `PDF_TEXT`/`CHUNKS` state unchanged. -/
theorem upload_no_file (st : GlobalState) :
    upload_pdf none st =
      some { status := "❌ No file", preview := "", newState := st,
             chunkCalls := 0, embedCalls := 0, upsertCalls := 0 } := rfl
